import Mathlib

/-!
Shallow embedding of `src/DataTypes/DataTypeDynamic.cpp` (ClickHouse `Dynamic`
data type): the declaration-argument validator `create`, the name printer
`doGetName`, and the subcolumn resolver `getDynamicSubcolumnData`, together
with models of the external collaborators they call (type registry, path
splitter, variant storage accessor, subcolumn creators), which are declared
in headers outside the provided sources and are therefore modelled from the
specification.
-/

namespace DB

/-! ## Declaration arguments (`static DataTypePtr create(const ASTPtr &)`) -/

/-- Error codes raised by `DataTypeDynamic.cpp` (namespace `ErrorCodes`). -/
inductive ErrorCode where
  | ILLEGAL_COLUMN
  | NUMBER_OF_ARGUMENTS_DOESNT_MATCH
  | UNEXPECTED_AST_STRUCTURE
deriving DecidableEq, Repr

/-- Model of `Field` values as they occur in `ASTLiteral::value`; only the
`UInt64` alternative passes the `getType() != Field::Types::UInt64` check in
`create`. -/
inductive Field where
  | uint (v : Nat)
  | int (v : Int)
  | str (s : String)
  | null
deriving DecidableEq, Repr

/-- Model of the AST nodes `create` inspects: `as<ASTFunction>()` succeeds only
on `func`, `as<ASTIdentifier>()` only on `ident`, `as<ASTLiteral>()` only on
`lit`; `other` stands for any further node kind. An `ASTFunction`'s
`arguments->children` is the `args` list. -/
inductive AST where
  | func (name : String) (args : List AST)
  | ident (name : String)
  | lit (value : Field)
  | other

/-- Outcome of `create`: a `DataTypeDynamic` with its `max_dynamic_types` bound,
a thrown `Exception`, or undefined behaviour (`crash`) where the C++ code
dereferences a null pointer (`as<ASTIdentifier>()->name()` on a non-identifier
child) or indexes `children` out of bounds. -/
inductive CreateResult where
  | ok (maxTypes : Nat)
  | error (code : ErrorCode)
  | crash
deriving DecidableEq, Repr

/-- Modelled from the spec: `DEFAULT_MAX_DYNAMIC_TYPES`, the fixed default bound
declared in `DataTypeDynamic.h`, which is not among the provided sources; the
spec only requires it to be a fixed constant (§3). -/
def DEFAULT_MAX_DYNAMIC_TYPES : Nat := 32

/-- Modelled from the spec: `ColumnVariant::MAX_NESTED_COLUMNS` from
`ColumnVariant.h` (not among the provided sources); the spec fixes it at 255,
the width of the one-byte discriminator encoding (§3, §9). -/
def MAX_NESTED_COLUMNS : Nat := 255

/-- Embedding of `static DataTypePtr create(const ASTPtr & arguments)` from
`DataTypeDynamic.cpp`. `none` models a null `ASTPtr`; `some children` models a
node whose `children` vector is the list. The unchecked
`as<ASTIdentifier>()->name()` dereference and the unchecked `children[i]`
accesses are made explicit as `crash`. -/
def create (arguments : Option (List AST)) : CreateResult :=
  match arguments with
  | none => .ok DEFAULT_MAX_DYNAMIC_TYPES
  | some children =>
    match children with
    | [] => .ok DEFAULT_MAX_DYNAMIC_TYPES
    | _ :: _ :: _ => .error .NUMBER_OF_ARGUMENTS_DOESNT_MATCH
    | [child] =>
      match child with
      | .func fname fargs =>
        if fname ≠ "equals" then .error .UNEXPECTED_AST_STRUCTURE
        else
          match fargs[0]? with
          | none => .crash
          | some lhs =>
            match lhs with
            | .ident identifier_name =>
              if identifier_name ≠ "max_types" then .error .UNEXPECTED_AST_STRUCTURE
              else
                match fargs[1]? with
                | none => .crash
                | some rhs =>
                  match rhs with
                  | .lit (.uint v) =>
                    if v = 0 ∨ v > MAX_NESTED_COLUMNS then .error .UNEXPECTED_AST_STRUCTURE
                    else .ok v
                  | _ => .error .UNEXPECTED_AST_STRUCTURE
            | _ => .crash
      | _ => .error .UNEXPECTED_AST_STRUCTURE

/-- Embedding of `String DataTypeDynamic::doGetName() const`. -/
def doGetName (max_dynamic_types : Nat) : String :=
  if max_dynamic_types = DEFAULT_MAX_DYNAMIC_TYPES then "Dynamic"
  else "Dynamic(max_types=" ++ toString max_dynamic_types ++ ")"

/-- The canonical AST for a well-formed single argument `max_types = N`. -/
def maxTypesArgs (n : Nat) : Option (List AST) :=
  some [AST.func "equals" [AST.ident "max_types", AST.lit (Field.uint n)]]

/-! ## Data types and external collaborators of the subcolumn resolver -/

/-- Modelled from the spec: the concrete type descriptors handled by the Type
Registry (external collaborator, §2/§6); a small closed universe of ClickHouse
types sufficient for the resolver: scalar types, `Array`, `Nullable` and
`LowCardinality` wrappers. -/
inductive DType where
  | uint8
  | uint64
  | int64
  | string
  | array (t : DType)
  | nullable (t : DType)
  | lowCard (t : DType)
deriving DecidableEq, Repr

/-- Modelled from the spec: `IDataType::getName` for the modelled universe,
using ClickHouse's canonical spellings. -/
def DType.getName : DType → String
  | .uint8 => "UInt8"
  | .uint64 => "UInt64"
  | .int64 => "Int64"
  | .string => "String"
  | .array t => "Array(" ++ t.getName ++ ")"
  | .nullable t => "Nullable(" ++ t.getName ++ ")"
  | .lowCard t => "LowCardinality(" ++ t.getName ++ ")"

/-- Modelled from the spec: the per-type predicate `canBeInsideNullable`
(§6 collaborator contract): scalar types may sit inside `Nullable`, composite
and wrapper types may not. -/
def DType.canBeInsideNullable : DType → Bool
  | .uint8 | .uint64 | .int64 | .string => true
  | .array _ | .nullable _ | .lowCard _ => false

/-- Modelled from the spec: the per-type predicate `lowCardinality` (`IDataType::lowCardinality`), true exactly on `LowCardinality` types. -/
def DType.lowCardinality : DType → Bool
  | .lowCard _ => true
  | _ => false

/-- Modelled from the spec: `makeNullableSafe` (from `DataTypeNullable.h`, not
among the provided sources): wrap in `Nullable` when the type allows it,
otherwise return the type unchanged. -/
def makeNullableSafe (t : DType) : DType :=
  if t.canBeInsideNullable then .nullable t else t

/-- Whether a type is already `Nullable` or `LowCardinality(Nullable(...))`. -/
def isNullableOrLowCardinalityNullable : DType → Bool
  | .nullable _ => true
  | .lowCard (.nullable _) => true
  | _ => false

/-- Modelled from the spec: `makeNullableOrLowCardinalityNullableSafe` (from
`DataTypeNullable.h`, not among the provided sources): wrap the semantic type
in the nullable, or low-cardinality-nullable, form (§4.1 step 6). -/
def makeNullableOrLowCardinalityNullableSafe (t : DType) : DType :=
  if isNullableOrLowCardinalityNullable t then t
  else
    match t with
    | .lowCard inner => .lowCard (makeNullableSafe inner)
    | _ => makeNullableSafe t

/-- Modelled from the spec: the Type Registry
(`DataTypeFactory::instance().tryGet`, external): the finite set of registered
type descriptors our model knows, looked up by canonical name. -/
def registeredTypes : List DType :=
  [.uint8, .uint64, .int64, .string, .array .uint8, .array .int64, .lowCard .string]

/-- Modelled from the spec: `DataTypeFactory::tryGet(name)`, returning `none`
for an unregistered name (§4.1 step 2). -/
def tryGet (name : String) : Option DType :=
  registeredTypes.find? (fun t => t.getName == name)

/-- Logical value held in one row of a column. `null` is the value of a
`Nullable` row holding NULL; an array row holds the list of its elements. -/
inductive Value where
  | u8 (n : Nat)
  | u64 (n : Nat)
  | i64 (n : Int)
  | str (s : String)
  | arr (vs : List Value)
  | null

/-- A column is the list of its per-row logical values. -/
abbrev Column := List Value

/-- Modelled from the spec: the per-type default value
(`IDataType::getDefault` / `insertManyDefaults`). A `LowCardinality` column's
default is its dictionary type's default. -/
def DType.defaultValue : DType → Value
  | .uint8 => .u8 0
  | .uint64 => .u64 0
  | .int64 => .i64 0
  | .string => .str ""
  | .array _ => .arr []
  | .nullable _ => .null
  | .lowCard t => t.defaultValue

/-- Serializations are tracked symbolically: the resolver only ever builds
them, never inspects them. `dynamicElement` models
`SerializationDynamicElement(nested, typeName, isNullMap)`; `sub` models the
serialization produced by the generic nested-subcolumn resolver for a named
subcolumn path. -/
inductive Serialization where
  | default (t : DType)
  | sub (s : Serialization) (path : String)
  | dynamicElement (nested : Serialization) (typeName : String) (isNullMap : Bool)
deriving DecidableEq, Repr

/-- Embedding of `IDataType::SubstreamData` as used here: serialization,
semantic type, and optional data column. -/
structure SubstreamData where
  serialization : Serialization
  type : DType
  column : Option Column

/-- Modelled from the spec: a frozen `ColumnDynamic` instance through the
Variant Storage Accessor contract (§6): the `VariantInfo` name→global
discriminator mapping, the per-global-discriminator variant sub-columns, the
global→local discriminator translation, and the per-row local discriminator
array. -/
structure ColumnDynamic where
  variantNameToDiscriminator : List (String × Nat)
  variants : List Column
  globalToLocal : List Nat
  localDiscriminators : List Nat

/-- `IColumn::size()` of the Dynamic column: its number of rows, one local
discriminator per row. -/
def ColumnDynamic.size (dc : ColumnDynamic) : Nat :=
  dc.localDiscriminators.length

/-- Outcome of a resolution: a descriptor, the `nullptr` sentinel (`absent`),
or a thrown exception. -/
inductive ResolveResult (α : Type) where
  | ok (r : α)
  | absent
  | thrown (e : ErrorCode)

/-- Modelled from the spec: the Path Splitter `Nested::splitName` (external,
§2/§6): split at the first dot, head before it, remainder after it; a name
with no dot has an empty remainder. Implemented on the character list. -/
def splitDot : List Char → Option (List Char × List Char)
  | [] => none
  | c :: cs =>
    if c = '.' then some ([], cs)
    else (splitDot cs).map (fun p => (c :: p.1, p.2))

/-- `Nested::splitName` on strings. -/
def splitName (name : String) : String × String :=
  match splitDot name.data with
  | none => (name, "")
  | some (h, t) => (⟨h⟩, ⟨t⟩)

/-! ## The subcolumn resolver `DataTypeDynamic::getDynamicSubcolumnData` -/

/-- The discriminator lookup of the resolver:
`variant_info.variant_name_to_discriminator.find(subcolumn_type->getName())`
on the instance column, when one was provided. -/
def discriminatorOf (dataColumn : Option ColumnDynamic) (t : DType) : Option Nat :=
  match dataColumn with
  | none => none
  | some dc => dc.variantNameToDiscriminator.lookup t.getName

/-- The `SubstreamData` the resolver builds before descending into the tail:
default serialization and type of the head type; the variant sub-column
(`getVariantPtrByGlobalDiscriminator`) as tentative column when the instance
has observed the head type. -/
def initialData (dataColumn : Option ColumnDynamic) (t : DType) : SubstreamData :=
  { serialization := .default t
    type := t
    column :=
      match dataColumn, discriminatorOf dataColumn t with
      | some dc, some d => some (dc.variants.getD d [])
      | _, _ => none }

/-- Per-row array sizes of an array column, used for the `size0` subcolumn. -/
def arraySizes (c : Column) : Column :=
  c.map (fun v =>
    match v with
    | .arr vs => .u64 vs.length
    | _ => .u64 0)

/-- Modelled from the spec: the Type Registry's per-type nested-subcolumn
resolver (`IDataType::getSubcolumnData`, the generic recursive descent of §4.1
step 4, external to the provided sources). In the modelled universe,
`Array(T)` exposes the subcolumn `size0` of type `UInt64` holding the per-row
array sizes; the other modelled types expose no nested subcolumns. An unknown
nested subcolumn throws or yields the `nullptr` sentinel according to
`throw_if_null`, as the spec requires failure propagation to preserve the
caller's mode. -/
def IDataType.getSubcolumnData (subcolumn_name : String) (data : SubstreamData)
    (throw_if_null : Bool) : ResolveResult SubstreamData :=
  match data.type with
  | .array _ =>
    if subcolumn_name == "size0" then
      .ok { serialization := .sub data.serialization "size0"
            type := .uint64
            column := data.column.map arraySizes }
    else if throw_if_null then .thrown .ILLEGAL_COLUMN else .absent
  | _ => if throw_if_null then .thrown .ILLEGAL_COLUMN else .absent

/-- Modelled from the spec:
`SerializationVariantElementNullMap::VariantNullMapSubcolumnCreator` (§4.2 row
"yes/yes"): per row, `1` exactly where the row's local discriminator differs
from this type's local discriminator, else `0`. -/
def variantNullMapCreate (localDiscs : List Nat) (localDisc : Nat) : Column :=
  localDiscs.map (fun d => .u8 (if d = localDisc then 0 else 1))

/-- Modelled from the spec:
`SerializationVariantElement::VariantSubcolumnCreator` (§4.2 row "yes/no"):
remap the variant sub-column row-by-row through the local discriminator array;
rows of this type take its values in storage order, other rows take the
(possibly nullable-wrapped) result type's default value. -/
def variantSubcolumnCreate (localDiscs : List Nat) (localDisc : Nat)
    (sub : Column) (defv : Value) : Column :=
  match localDiscs with
  | [] => []
  | d :: ds =>
    if d = localDisc then
      sub.headD defv :: variantSubcolumnCreate ds localDisc sub.tail defv
    else
      defv :: variantSubcolumnCreate ds localDisc sub defv

/-- The tail-handling step of `getDynamicSubcolumnData`: the reserved tail
`null` overrides the tentative type with `UInt8` without recursing; an empty
tail keeps the tentative data; any other tail is resolved through the generic
nested-subcolumn resolver of the head type, propagating its failure. -/
def resolveTail (tail : String) (subcolumn_type : DType)
    (dataColumn : Option ColumnDynamic) (throw_if_null : Bool) :
    ResolveResult SubstreamData :=
  if tail == "null" then
    .ok { initialData dataColumn subcolumn_type with type := .uint8 }
  else if tail == "" then
    .ok (initialData dataColumn subcolumn_type)
  else
    IDataType.getSubcolumnData tail (initialData dataColumn subcolumn_type) throw_if_null

/-- The materialization step (§4.2), entered only when an instance column was
provided: with a known discriminator, build the null-map view or the
discriminator-remapped sub-column view; with no discriminator, build the
eager all-ones null map or the eager default-filled column of the resolved
type, of the instance's row count. -/
def materialize (dc : ColumnDynamic) (discriminator : Option Nat)
    (is_null_map : Bool) (res : SubstreamData) : SubstreamData :=
  match discriminator with
  | some d =>
    if is_null_map then
      let c := variantNullMapCreate dc.localDiscriminators (dc.globalToLocal.getD d 0)
      { res with column := some c }
    else
      let c := variantSubcolumnCreate dc.localDiscriminators (dc.globalToLocal.getD d 0)
        (res.column.getD []) res.type.defaultValue
      { res with column := some c }
  | none =>
    if is_null_map then
      { res with column := some (List.replicate dc.size (Value.u8 1)) }
    else
      { res with column := some (List.replicate dc.size res.type.defaultValue) }

/-- The body of `getDynamicSubcolumnData` after the head type was found in the
registry: tail handling, serialization wrapping, the nullability-wrap decision
(evaluated on `subcolumn_type`, the head type), and materialization. -/
def dynamicSubcolumnFound (tail : String) (subcolumn_type : DType)
    (dataColumn : Option ColumnDynamic) (throw_if_null : Bool) :
    ResolveResult SubstreamData :=
  match resolveTail tail subcolumn_type dataColumn throw_if_null with
  | .absent => .absent
  | .thrown e => .thrown e
  | .ok res1 =>
    let is_null_map := tail == "null"
    let make_subcolumn_nullable :=
      subcolumn_type.canBeInsideNullable || subcolumn_type.lowCardinality
    let res2 : SubstreamData :=
      { res1 with serialization :=
          .dynamicElement res1.serialization subcolumn_type.getName is_null_map }
    let res3 : SubstreamData :=
      if !is_null_map && make_subcolumn_nullable then
        { res2 with type := makeNullableOrLowCardinalityNullableSafe res2.type }
      else res2
    match dataColumn with
    | none => .ok res3
    | some dc =>
      .ok (materialize dc (discriminatorOf dataColumn subcolumn_type) is_null_map res3)

/-- Embedding of `DataTypeDynamic::getDynamicSubcolumnData(subcolumn_name,
data, throw_if_null)`. Of the input `SubstreamData` only the column matters;
the `assert_cast<const ColumnDynamic &>(*data.column)` is made explicit by
taking the optional instance as a `ColumnDynamic` model directly. -/
def getDynamicSubcolumnData (subcolumn_name : String)
    (dataColumn : Option ColumnDynamic) (throw_if_null : Bool) :
    ResolveResult SubstreamData :=
  match tryGet (splitName subcolumn_name).1 with
  | none => if throw_if_null then .thrown .ILLEGAL_COLUMN else .absent
  | some subcolumn_type =>
    dynamicSubcolumnFound (splitName subcolumn_name).2 subcolumn_type dataColumn throw_if_null

/-! ## A declaration parser model, for the name round trip -/

/-- Digit accumulator of the literal parser model. -/
def parseDigitsAux : List Char → Nat → Option Nat
  | [], acc => some acc
  | c :: cs, acc =>
    if c.isDigit then parseDigitsAux cs (acc * 10 + (c.toNat - 48))
    else none

/-- Parse a non-empty all-digit character list as a natural number. -/
def parseDigits (cs : List Char) : Option Nat :=
  match cs with
  | [] => none
  | _ :: _ => parseDigitsAux cs 0

/-- Modelled from the spec: the SQL type-declaration parser (external, §6
grammar `Dynamic` / `Dynamic(max_types = N)`): map the textual type name to
the argument AST that `create` receives — no arguments for plain `Dynamic`,
the `max_types = N` equality for the parenthesised form. -/
def parseDynamicDeclaration (s : String) : Option (Option (List AST)) :=
  if s = "Dynamic" then some none
  else
    let cs := s.data
    if cs.take 18 = "Dynamic(max_types=".data ∧ cs.getLast? = some ')' then
      match parseDigits ((cs.drop 18).dropLast) with
      | some n => maxTypesArgs n
      | none => none
    else none

/-- Feed the printed name of a `Dynamic` descriptor with bound `b` back
through declaration parsing and `create`. -/
def reparse (b : Nat) : Option CreateResult :=
  (parseDynamicDeclaration (doGetName b)).map create

/-- A concrete frozen instance used by witnesses: three rows, having observed
`Int64` (global discriminator 0, rows 0 and 2) and `String` (global
discriminator 1, row 1). -/
def exampleInstance : ColumnDynamic :=
  { variantNameToDiscriminator := [("Int64", 0), ("String", 1)]
    variants := [[.i64 10, .i64 20], [.str "a"]]
    globalToLocal := [0, 1]
    localDiscriminators := [0, 1, 0] }

/-! ## Helper lemmas -/

/-- Materialization never changes the semantic type of the descriptor. -/
theorem materialize_type (dc : ColumnDynamic) (d : Option Nat) (inm : Bool)
    (res : SubstreamData) : (materialize dc d inm res).type = res.type := by
  cases d <;> cases inm <;> rfl

/-- The discriminator-remapping creator emits exactly one row per local
discriminator. -/
theorem variantSubcolumnCreate_length (ds : List Nat) (ld : Nat) :
    ∀ sub defv, (variantSubcolumnCreate ds ld sub defv).length = ds.length := by
  induction ds with
  | nil => intro sub defv; rfl
  | cons d ds ih =>
    intro sub defv
    unfold variantSubcolumnCreate
    split <;> simp [ih]

/-- Materialization always produces a column of the instance's row count. -/
theorem materialize_column (dc : ColumnDynamic) (d : Option Nat) (inm : Bool)
    (res : SubstreamData) :
    ∃ c, (materialize dc d inm res).column = some c ∧ c.length = dc.size := by
  cases d with
  | none =>
    cases inm
    · exact ⟨_, rfl, by simp [ColumnDynamic.size]⟩
    · exact ⟨_, rfl, by simp [ColumnDynamic.size]⟩
  | some d =>
    cases inm
    · exact ⟨_, rfl, by simp [variantSubcolumnCreate_length, ColumnDynamic.size]⟩
    · exact ⟨_, rfl, by simp [variantNullMapCreate, ColumnDynamic.size]⟩

/-- The materialized column is always present. -/
theorem materialize_column_isSome (dc : ColumnDynamic) (d : Option Nat) (inm : Bool)
    (res : SubstreamData) : (materialize dc d inm res).column.isSome = true := by
  obtain ⟨c, hc, _⟩ := materialize_column dc d inm res
  rw [hc]
  rfl

/-- Length form of `materialize_column`. -/
theorem materialize_column_length (dc : ColumnDynamic) (d : Option Nat) (inm : Bool)
    (res : SubstreamData) (c : Column)
    (h : (materialize dc d inm res).column = some c) : c.length = dc.size := by
  obtain ⟨c', hc, hl⟩ := materialize_column dc d inm res
  rw [hc] at h
  cases h
  exact hl

/-- Tail resolution preserves presence of the tentative data column. -/
theorem resolveTail_column_isSome (tail : String) (t : DType)
    (dcOpt : Option ColumnDynamic) (tf : Bool) (r1 : SubstreamData)
    (h : resolveTail tail t dcOpt tf = .ok r1) :
    r1.column.isSome = (initialData dcOpt t).column.isSome := by
  unfold resolveTail at h
  split at h
  · cases h; rfl
  · split at h
    · cases h; rfl
    · unfold IDataType.getSubcolumnData at h
      split at h
      · split at h
        · cases h; simp
        · split at h <;> cases h
      · split at h <;> cases h

/-- With no instance column the tentative data column is absent. -/
theorem initialData_column_none (t : DType) :
    (initialData none t).column = none := rfl

/-- The tail `null` always forces the tentative type to `UInt8`. -/
theorem resolveTail_type_null (t : DType) (dcOpt : Option ColumnDynamic) (tf : Bool)
    (r1 : SubstreamData) (h : resolveTail "null" t dcOpt tf = .ok r1) :
    r1.type = .uint8 := by
  unfold resolveTail at h
  simp at h
  rw [← h]

/-- A successful resolution whose tail is `null` yields type `UInt8`, for any
registered head type. -/
theorem found_null_tail_type (t : DType) (dcOpt : Option ColumnDynamic)
    (tf : Bool) (r : SubstreamData)
    (h : dynamicSubcolumnFound "null" t dcOpt tf = .ok r) : r.type = .uint8 := by
  unfold dynamicSubcolumnFound at h
  cases hrt : resolveTail "null" t dcOpt tf with
  | absent => rw [hrt] at h; cases h
  | thrown e => rw [hrt] at h; cases h
  | ok res1 =>
    rw [hrt] at h
    have ht1 : res1.type = .uint8 := resolveTail_type_null t dcOpt tf res1 hrt
    cases dcOpt with
    | none =>
      simp at h
      rw [← h, ht1]
    | some dc =>
      simp at h
      rw [← h, materialize_type]
      exact ht1

/-- The printed name is `"Dynamic"` exactly for the default bound: any other
bound yields the 19-character-plus-digits parenthesised form. -/
theorem name_eq_iff (b : Nat) : doGetName b = "Dynamic" ↔ b = DEFAULT_MAX_DYNAMIC_TYPES := by
  constructor
  · intro h
    by_contra hb
    unfold doGetName at h
    rw [if_neg hb] at h
    have hl := congrArg String.length h
    rw [String.length_append, String.length_append] at hl
    have e1 : ("Dynamic(max_types=" : String).length = 18 := rfl
    have e2 : (")" : String).length = 1 := rfl
    have e3 : ("Dynamic" : String).length = 7 := rfl
    rw [e1, e2, e3] at hl
    omega
  · intro h
    subst h
    rfl

set_option maxHeartbeats 1000000 in
set_option maxRecDepth 100000 in
/-- Exhaustive check of the printed-name round trip over all representable
positive bounds below the discriminator limit. -/
theorem name_roundtrip_aux : ∀ b : Fin 256, 1 ≤ b.val → reparse b.val = some (.ok b.val) := by
  decide

/-! ## Claim theorems -/

/-- Claim C1, counterexample: resolving `Array(UInt8).size0` (no instance)
returns the plain `UInt64` type, although the resolved nested type `UInt64`
satisfies `canBeInsideNullable` and would be wrapped to `Nullable(UInt64)` if
the wrap decision were evaluated on the resolved type; the code evaluates the
predicates on the head type `Array(UInt8)` instead, whose predicates are
false. -/
theorem wrap_decision_on_resolved_type_counterexample :
    getDynamicSubcolumnData "Array(UInt8).size0" none false =
      .ok { serialization := .dynamicElement (.sub (.default (.array .uint8)) "size0") "Array(UInt8)" false
            type := .uint64
            column := none } ∧
    DType.canBeInsideNullable .uint64 = true ∧
    makeNullableOrLowCardinalityNullableSafe .uint64 = .nullable .uint64 ∧
    DType.nullable .uint64 ≠ .uint64 :=
  ⟨rfl, rfl, rfl, by decide⟩

/-- Claim C1, amended: for every path with a recursively resolved non-`null`
tail, the decision whether to wrap is made by evaluating the
`canBeInsideNullable` / low-cardinality predicates on the original head type
named by the first path segment, and only the wrap itself is applied to the
final resolved type. -/
theorem wrap_decision_uses_head_type (path : String) (dcOpt : Option ColumnDynamic)
    (tf : Bool) (t : DType) (r r₁ : SubstreamData)
    (hh : tryGet (splitName path).1 = some t)
    (h1 : (splitName path).2 ≠ "null") (h2 : (splitName path).2 ≠ "")
    (hrec : IDataType.getSubcolumnData (splitName path).2 (initialData dcOpt t) tf = .ok r₁)
    (hok : getDynamicSubcolumnData path dcOpt tf = .ok r) :
    r.type = if t.canBeInsideNullable || t.lowCardinality
             then makeNullableOrLowCardinalityNullableSafe r₁.type else r₁.type := by
  unfold getDynamicSubcolumnData at hok
  rw [hh] at hok
  unfold dynamicSubcolumnFound resolveTail at hok
  simp [h1, h2, hrec] at hok
  cases dcOpt with
  | none =>
    simp at hok
    split at hok
    · rw [← hok]
      simp_all
    · rw [← hok]
      simp_all
  | some dc =>
    simp at hok
    split at hok
    · rw [← hok, materialize_type]
      simp_all
    · rw [← hok, materialize_type]
      simp_all

/-- Claim C1 witness: the amended theorem applied at `Array(UInt8).size0`
resolved without an instance column. -/
theorem wrap_decision_uses_head_type_witness :
    ({ serialization := .dynamicElement (.sub (.default (.array .uint8)) "size0") "Array(UInt8)" false
       type := .uint64
       column := none } : SubstreamData).type =
      if (DType.array .uint8).canBeInsideNullable || (DType.array .uint8).lowCardinality
      then makeNullableOrLowCardinalityNullableSafe
            (({ serialization := .sub (.default (.array .uint8)) "size0"
                type := .uint64
                column := none } : SubstreamData).type)
      else ({ serialization := .sub (.default (.array .uint8)) "size0"
              type := .uint64
              column := none } : SubstreamData).type :=
  wrap_decision_uses_head_type "Array(UInt8).size0" none false (.array .uint8)
    { serialization := .dynamicElement (.sub (.default (.array .uint8)) "size0") "Array(UInt8)" false
      type := .uint64
      column := none }
    { serialization := .sub (.default (.array .uint8)) "size0"
      type := .uint64
      column := none }
    rfl (by decide) (by decide) rfl rfl

/-- Claim C2, counterexample: the path `Int64.null.x` has a tail beginning
with the reserved segment `null`, yet resolution is not the null-map leaf: it
recurses past `null` into the head type's subcolumn resolver and fails (the
soft mode yields `Absent`, the hard mode throws), instead of stopping at
`null` with a `UInt8` descriptor as the claim predicts. -/
theorem null_tail_with_suffix_counterexample :
    (splitName "Int64.null.x").2 = "null.x" ∧
    getDynamicSubcolumnData "Int64.null.x" none false = .absent ∧
    getDynamicSubcolumnData "Int64.null.x" none true = .thrown .ILLEGAL_COLUMN :=
  ⟨rfl, rfl, rfl⟩

/-- Claim C2, amended: the null-map leaf is selected only when the tail is
exactly `null`; any other non-empty tail — including one that merely begins
with `null` — is handed whole to the head type's nested-subcolumn resolver,
whose failure propagates in the caller's mode. -/
theorem null_leaf_requires_exact_tail (path : String) (dcOpt : Option ColumnDynamic)
    (tf : Bool) (t : DType) (hh : tryGet (splitName path).1 = some t)
    (h1 : (splitName path).2 ≠ "null") (h2 : (splitName path).2 ≠ "") :
    (IDataType.getSubcolumnData (splitName path).2 (initialData dcOpt t) tf = .absent →
      getDynamicSubcolumnData path dcOpt tf = .absent) ∧
    (∀ e, IDataType.getSubcolumnData (splitName path).2 (initialData dcOpt t) tf = .thrown e →
      getDynamicSubcolumnData path dcOpt tf = .thrown e) := by
  unfold getDynamicSubcolumnData
  rw [hh]
  unfold dynamicSubcolumnFound resolveTail
  simp [h1, h2]
  constructor
  · intro ha
    rw [ha]
  · intro e he
    rw [he]

/-- Claim C2 witness: the amended theorem applied at `Int64.null.x`. -/
theorem null_leaf_requires_exact_tail_witness :
    getDynamicSubcolumnData "Int64.null.x" none false = .absent :=
  (null_leaf_requires_exact_tail "Int64.null.x" none false .int64 rfl (by decide) (by decide)).1 rfl

/-- Claim C3: the claim states that every malformed `Dynamic(...)` argument
reaches an error branch and construction never crashes; the code instead
dereferences the null result of `as<ASTIdentifier>()` when the left-hand side
of the single `equals` argument is not an identifier. At the declaration
`Dynamic(1 = 2)` the embedded `create` reaches the undefined-behaviour
outcome rather than an error. -/
theorem create_non_identifier_lhs_crash :
    create (some [AST.func "equals" [AST.lit (Field.uint 1), AST.lit (Field.uint 2)]]) = .crash :=
  rfl

/-- Claim C4: if the supplied instance has never observed the requested head
type, the returned column is the all-ones `UInt8` null map of the instance's
row count when the tail is `null`, and otherwise a column of the instance's
row count filled with the resolved semantic type's default value. -/
theorem absent_type_materialization (path : String) (tf : Bool) (r : SubstreamData)
    (dc : ColumnDynamic) (t : DType)
    (hh : tryGet (splitName path).1 = some t)
    (hdisc : discriminatorOf (some dc) t = none)
    (hok : getDynamicSubcolumnData path (some dc) tf = .ok r) :
    r.column = some (if (splitName path).2 = "null"
                     then List.replicate dc.size (Value.u8 1)
                     else List.replicate dc.size r.type.defaultValue) := by
  unfold getDynamicSubcolumnData at hok
  rw [hh] at hok
  dsimp only at hok
  unfold dynamicSubcolumnFound at hok
  cases hrt : resolveTail (splitName path).2 t (some dc) tf with
  | absent => rw [hrt] at hok; cases hok
  | thrown e => rw [hrt] at hok; cases hok
  | ok res1 =>
    rw [hrt] at hok
    simp [hdisc] at hok
    by_cases hnull : (splitName path).2 = "null"
    · simp only [hnull] at hok ⊢
      simp at hok ⊢
      rw [← hok]
      unfold materialize
      simp
    · simp only [if_neg hnull] at hok ⊢
      have hb : ((splitName path).2 == "null") = false := by
        simp [hnull]
      rw [hb] at hok
      rw [← hok]
      unfold materialize
      simp

/-- Claim C4 witness: resolving `UInt64`, never observed by
`exampleInstance`, yields three rows of the wrapped type's default (NULL). -/
theorem absent_type_materialization_witness :
    ({ serialization := .dynamicElement (.default .uint64) "UInt64" false
       type := .nullable .uint64
       column := some (List.replicate 3 Value.null) } : SubstreamData).column =
      some (if (splitName "UInt64").2 = "null"
            then List.replicate exampleInstance.size (Value.u8 1)
            else List.replicate exampleInstance.size ((DType.nullable .uint64).defaultValue)) :=
  absent_type_materialization "UInt64" false
    { serialization := .dynamicElement (.default .uint64) "UInt64" false
      type := .nullable .uint64
      column := some (List.replicate 3 Value.null) }
    exampleInstance .uint64 rfl rfl rfl

/-- Claim C5: declaring `Dynamic` with no arguments (null pointer or empty
children) succeeds with the default bound; `Dynamic(max_types=N)` succeeds
with bound `N` for every `1 ≤ N ≤ 255`; `N = 0` and every `N > 255` fail. -/
theorem create_bounds (n k : Nat) (h1 : 1 ≤ n) (h2 : n ≤ 255) :
    create none = .ok DEFAULT_MAX_DYNAMIC_TYPES ∧
    create (some []) = .ok DEFAULT_MAX_DYNAMIC_TYPES ∧
    create (maxTypesArgs n) = .ok n ∧
    create (maxTypesArgs 0) = .error .UNEXPECTED_AST_STRUCTURE ∧
    create (maxTypesArgs (256 + k)) = .error .UNEXPECTED_AST_STRUCTURE := by
  have hn : ¬(n = 0 ∨ n > MAX_NESTED_COLUMNS) := by
    simp [MAX_NESTED_COLUMNS]
    omega
  have hk : (256 + k = 0 ∨ 256 + k > MAX_NESTED_COLUMNS) := by
    right
    simp [MAX_NESTED_COLUMNS]
    omega
  refine ⟨rfl, rfl, ?_, rfl, ?_⟩
  · simp [create, maxTypesArgs, hn]
  · simp [create, maxTypesArgs, hk, MAX_NESTED_COLUMNS]
    omega

/-- Claim C5 witness: `create_bounds` at `n = 7`, `k = 0`. -/
theorem create_bounds_witness :
    create (maxTypesArgs 7) = .ok 7 ∧
    create (maxTypesArgs 256) = .error .UNEXPECTED_AST_STRUCTURE :=
  ⟨(create_bounds 7 0 (by decide) (by decide)).2.2.1,
   (create_bounds 7 0 (by decide) (by decide)).2.2.2.2⟩

/-- Claim C6: when the head segment names no registered type, hard-failure
mode throws the unknown-subcolumn error (`ILLEGAL_COLUMN`, the spec's
`UnknownSubcolumnType`) and soft mode returns the `Absent` sentinel; no
descriptor is produced in either mode. -/
theorem unknown_head_type_modes (path : String) (dcOpt : Option ColumnDynamic)
    (tf : Bool) (h : tryGet (splitName path).1 = none) :
    getDynamicSubcolumnData path dcOpt tf =
      (if tf then .thrown .ILLEGAL_COLUMN else .absent) := by
  unfold getDynamicSubcolumnData
  rw [h]

/-- Claim C6 witness: the theorem applied in both modes at an unregistered
head name. -/
theorem unknown_head_type_modes_witness :
    getDynamicSubcolumnData "SomeUnknownType" none true = .thrown .ILLEGAL_COLUMN ∧
    getDynamicSubcolumnData "SomeUnknownType" none false = .absent :=
  ⟨unknown_head_type_modes "SomeUnknownType" none true rfl,
   unknown_head_type_modes "SomeUnknownType" none false rfl⟩

/-- Claim C7: every successfully resolved path whose tail is exactly `null`
returns the `UInt8` semantic type, never wrapped in `Nullable` or
`LowCardinality(Nullable)`, regardless of the head type's predicates. -/
theorem null_map_leaf_type_uint8 (path : String) (dcOpt : Option ColumnDynamic)
    (tf : Bool) (r : SubstreamData) (htail : (splitName path).2 = "null")
    (h : getDynamicSubcolumnData path dcOpt tf = .ok r) : r.type = .uint8 := by
  unfold getDynamicSubcolumnData at h
  cases hg : tryGet (splitName path).1 with
  | none =>
    rw [hg] at h
    dsimp only at h
    split at h <;> simp at h
  | some t =>
    rw [hg, htail] at h
    dsimp only at h
    exact found_null_tail_type t dcOpt tf r h

/-- Claim C7 witness: `Int64.null` resolves to `UInt8` even though `Int64`
itself can be inside `Nullable`. -/
theorem null_map_leaf_type_uint8_witness :
    ({ serialization := .dynamicElement (.default .int64) "Int64" true
       type := .uint8
       column := none } : SubstreamData).type = .uint8 :=
  null_map_leaf_type_uint8 "Int64.null" none false
    { serialization := .dynamicElement (.default .int64) "Int64" true
      type := .uint8
      column := none }
    rfl rfl

/-- Claim C8: a successful resolution carries a data column exactly when an
instance column was supplied, and a present column always has the instance's
row count. -/
theorem column_presence_and_length (path : String) (dcOpt : Option ColumnDynamic)
    (tf : Bool) (r : SubstreamData)
    (h : getDynamicSubcolumnData path dcOpt tf = .ok r) :
    (r.column.isSome ↔ dcOpt.isSome) ∧
    (∀ dc c, dcOpt = some dc → r.column = some c → c.length = dc.size) := by
  unfold getDynamicSubcolumnData at h
  cases hg : tryGet (splitName path).1 with
  | none =>
    rw [hg] at h
    dsimp only at h
    split at h <;> simp at h
  | some t =>
    rw [hg] at h
    dsimp only at h
    unfold dynamicSubcolumnFound at h
    cases hrt : resolveTail (splitName path).2 t dcOpt tf with
    | absent => rw [hrt] at h; cases h
    | thrown e => rw [hrt] at h; cases h
    | ok res1 =>
      rw [hrt] at h
      cases dcOpt with
      | none =>
        simp at h
        have hc := resolveTail_column_isSome _ _ _ _ _ hrt
        rw [initialData_column_none] at hc
        constructor
        · rw [← h]
          split <;> simpa using hc
        · intro dc c hdc
          cases hdc
      | some dc =>
        simp at h
        constructor
        · rw [← h]
          simp [materialize_column_isSome]
        · intro dc' c hdc hcc
          cases hdc
          rw [← h] at hcc
          exact materialize_column_length _ _ _ _ _ hcc

/-- Claim C8 witness: resolving `UInt64.null` against the three-row
`exampleInstance` yields a column of its row count. -/
theorem column_presence_and_length_witness :
    (List.replicate 3 (Value.u8 1)).length = exampleInstance.size :=
  (column_presence_and_length "UInt64.null" (some exampleInstance) false
    { serialization := .dynamicElement (.default .uint64) "UInt64" true
      type := .uint8
      column := some (List.replicate 3 (Value.u8 1)) }
    rfl).2 exampleInstance (List.replicate 3 (Value.u8 1)) rfl rfl

/-- Claim C9: two resolutions of the same path against the same frozen
instance in the same mode produce descriptors with identical semantic type
and identical logical column contents. -/
theorem resolution_deterministic (path : String) (dcOpt : Option ColumnDynamic)
    (tf : Bool) (r₁ r₂ : SubstreamData)
    (h₁ : getDynamicSubcolumnData path dcOpt tf = .ok r₁)
    (h₂ : getDynamicSubcolumnData path dcOpt tf = .ok r₂) :
    r₁.type = r₂.type ∧ r₁.column = r₂.column := by
  rw [h₁] at h₂
  injection h₂ with h
  rw [h]
  exact ⟨rfl, rfl⟩

/-- Claim C9 witness: the theorem applied twice to `Int64` against
`exampleInstance`. -/
theorem resolution_deterministic_witness :
    DType.nullable .int64 = DType.nullable .int64 ∧
    (some [Value.i64 10, Value.null, Value.i64 20] : Option Column) =
      some [Value.i64 10, Value.null, Value.i64 20] :=
  resolution_deterministic "Int64" (some exampleInstance) false
    { serialization := .dynamicElement (.default .int64) "Int64" false
      type := .nullable .int64
      column := some [Value.i64 10, Value.null, Value.i64 20] }
    { serialization := .dynamicElement (.default .int64) "Int64" false
      type := .nullable .int64
      column := some [Value.i64 10, Value.null, Value.i64 20] }
    rfl rfl

/-- Claim C10: the printed type name is `"Dynamic"` exactly when the bound is
the default maximum, and for every bound producible by declaration parsing
(`1 ≤ b ≤ 255`, the default included) feeding the printed name back through
declaration parsing and `create` reproduces the bound. -/
theorem name_roundtrip (b : Nat) :
    (doGetName b = "Dynamic" ↔ b = DEFAULT_MAX_DYNAMIC_TYPES) ∧
    (1 ≤ b → b ≤ 255 → reparse b = some (.ok b)) := by
  refine ⟨name_eq_iff b, fun h1 h2 => ?_⟩
  exact name_roundtrip_aux ⟨b, by omega⟩ h1

/-- Claim C10 witness: the theorem applied at the non-default bound 7. -/
theorem name_roundtrip_witness :
    (doGetName 7 = "Dynamic" ↔ 7 = DEFAULT_MAX_DYNAMIC_TYPES) ∧
    reparse 7 = some (.ok 7) :=
  ⟨(name_roundtrip 7).1, (name_roundtrip 7).2 (by decide) (by decide)⟩

end DB
